import Mathlib

/-!
Shallow embedding of the metrics subsystem of quepid-es-proxy
(src/quepid_es_proxy/metrics.py, wired in src/quepid_es_proxy/main.py).

Conventions of the embedding:
* clock readings from Python's time.time() are rationals, passed in
  explicitly at the program points where the source calls time();
* the side effects on the Elasticsearch backend are reified as a trace,
  a list of ESOp values, emitted in source order;
* the middleware's invocations of the completion callback (which
  add_metrics_app binds to the manager's store operation) are reified as
  the list of BenchmarkRecord values passed to it;
* a downstream handler either returns a response or raises a fault,
  modelled as Except.
-/

namespace QuepidESProxy

/-- BenchmarkRecord (metrics.py lines 15-18): a route name plus elapsed
wall-clock milliseconds. -/
structure BenchmarkRecord where
  name : String
  wall_ms : Rat
deriving DecidableEq, Repr

/-- Benchmark (metrics.py lines 24-54): scoped timer; the done callback it
carries is modelled by collecting the records passed to it. Construction
sets start_time to 0 (line 38). -/
structure Benchmark where
  name : String
  start_time : Rat
deriving DecidableEq, Repr

/-- Benchmark.__init__ (metrics.py lines 30-38). -/
def Benchmark.init (name : String) : Benchmark :=
  { name := name, start_time := 0 }

/-- Benchmark.__enter__ (metrics.py lines 40-42): records the entry clock
reading. -/
def Benchmark.enter (b : Benchmark) (t : Rat) : Benchmark :=
  { b with start_time := t }

/-- Benchmark.take_record (metrics.py lines 49-54): reads the clock again and
builds the record with wall_ms = 1000 * (end_time - start_time). -/
def Benchmark.take_record (b : Benchmark) (end_time : Rat) : BenchmarkRecord :=
  { name := b.name, wall_ms := 1000 * (end_time - b.start_time) }

/-- Path-pattern segment of a registered route: a literal segment or a path
parameter such as the index_name of the route pattern. -/
inductive Seg
  | lit (s : String)
  | param (x : String)
deriving DecidableEq, Repr

/-- An inbound request as the route matcher sees it: the path split into
segments, and the HTTP method. -/
structure Request where
  path : List String
  method : String
deriving DecidableEq, Repr

/-- starlette.routing.Match: the outcome of Route.matches. -/
inductive Match
  | NONE
  | PARTIAL
  | FULL
deriving DecidableEq, Repr

/-- One pattern segment against one path segment: a literal must be equal; a
path parameter captures any non-empty segment. -/
def matchSeg : Seg → String → Bool
  | Seg.lit s, x => s == x
  | Seg.param _, x => x != ""

/-- A whole pattern against a whole path, segmentwise, same length. -/
def matchPath : List Seg → List String → Bool
  | [], [] => true
  | s :: p, x :: xs => matchSeg s x && matchPath p xs
  | _, _ => false

/-- A registered route (starlette Route): pattern, allowed methods, and the
identifying metadata the middleware reads. endpoint_module is the module of
the endpoint function when the route object has an endpoint attribute
(mounts do not); name is the route name when present. -/
structure Route where
  pattern : List Seg
  methods : List String
  endpoint_module : Option String
  name : Option String
deriving DecidableEq, Repr

/-- Route.matches: FULL when path and method both match, PARTIAL when only
the path matches, NONE otherwise. -/
def Route.matches (r : Route) (req : Request) : Match :=
  if matchPath r.pattern req.path then
    if r.methods.contains req.method then Match.FULL else Match.PARTIAL
  else Match.NONE

/-- RequestMetricsHandler (metrics.py lines 157-205): the app's registered
routes in registration order, and the configured measured-route set. -/
structure RequestMetricsHandler where
  routes : List Route
  measure_routes : List String
deriving DecidableEq, Repr

/-- RequestMetricsHandler.get_matching_route (metrics.py lines 193-196):
first registered route that matches fully; None when no route does. -/
def RequestMetricsHandler.get_matching_route
    (h : RequestMetricsHandler) (req : Request) : Option Route :=
  h.routes.find? (fun r => r.matches req == Match.FULL)

/-- RequestMetricsHandler.get_route_name (metrics.py lines 198-205): the
dotted identifier endpoint.__module__ + "." + name when the matched route
carries both attributes, the empty string otherwise (also when no route
matched). -/
def RequestMetricsHandler.get_route_name
    (h : RequestMetricsHandler) (req : Request) : String :=
  match h.get_matching_route req with
  | some route =>
    match route.endpoint_module, route.name with
    | some m, some n => m ++ "." ++ n
    | _, _ => ""
  | none => ""

/-- RequestMetricsHandler.is_route_measurable (metrics.py lines 181-182):
membership of the resolved name in the measured-route list. -/
def RequestMetricsHandler.is_route_measurable
    (h : RequestMetricsHandler) (route_name : String) : Bool :=
  h.measure_routes.contains route_name

/-- The context manager chosen per request: a Benchmark for measured routes,
contextlib.nullcontext otherwise. -/
inductive MetricsContext
  | benchmark (b : Benchmark)
  | nullcontext
deriving DecidableEq, Repr

/-- RequestMetricsHandler.get_route_handler (metrics.py lines 184-191). -/
def RequestMetricsHandler.get_route_handler
    (h : RequestMetricsHandler) (req : Request) : MetricsContext :=
  let name := h.get_route_name req
  if h.is_route_measurable name then
    MetricsContext.benchmark (Benchmark.init name)
  else
    MetricsContext.nullcontext

/-- Result of the downstream handler: a response, or a raised fault. -/
abbrev Response := String

/-- A fault raised by the downstream handler. -/
abbrev Fault := String

/-- Outcome of awaiting call_next. -/
abbrev DownstreamResult := Except Fault Response

/-- Semantics of the with-statement around call_next: on entry the Benchmark
reads the clock (t_enter); the body runs; on exit - reached on the success
path and on the fault path alike, and suppressing nothing since
Benchmark.__exit__ returns None - take_record reads the clock again
(t_exit) and the record is handed to the done callback. nullcontext passes
the body through and emits nothing. -/
def withContext (ctx : MetricsContext) (t_enter t_exit : Rat)
    (body : DownstreamResult) : DownstreamResult × List BenchmarkRecord :=
  match ctx with
  | MetricsContext.benchmark b => (body, [(b.enter t_enter).take_record t_exit])
  | MetricsContext.nullcontext => (body, [])

/-- RequestMetricsHandler.__call__ (metrics.py lines 173-179): wrap the
downstream call in the context manager chosen by get_route_handler. The
second component is the list of records passed to the done callback, which
add_metrics_app binds to the manager's store operation. -/
def RequestMetricsHandler.call (h : RequestMetricsHandler) (req : Request)
    (call_next : DownstreamResult) (t_enter t_exit : Rat) :
    DownstreamResult × List BenchmarkRecord :=
  withContext (h.get_route_handler req) t_enter t_exit call_next

/-- Instantiation of a route pattern: substitute a value for every path
parameter, keep the literals. -/
def instPath (pattern : List Seg) (σ : String → String) : List String :=
  pattern.map (fun s =>
    match s with
    | Seg.lit l => l
    | Seg.param x => σ x)

/-- A document body handed to the es.index call: the literal empty body,
the class-level field mapping, or one metric document with its three
fields. -/
inductive ESDocument
  | empty
  | mapping
  | metric (endpoint : String) (wall_ms : Rat) (timestamp : String)
deriving DecidableEq, Repr

/-- One operation issued to the Elasticsearch client, in source order: an
index call (with its optional doc_type argument) or a search, recorded by
the lower bound of its timestamp range query. -/
inductive ESOp
  | index (idx : String) (body : ESDocument) (doc_type : Option String)
  | search (idx : String) (gte : String)
deriving DecidableEq, Repr

/-- ElasticSearchMetricsManager state (metrics.py lines 90-94): the index
name, the lazily obtained connection (abstracted to Unit) and the memoised
result of create_mapping, both None until setup first runs. -/
structure ElasticSearchMetricsManager where
  index : String
  es : Option Unit
  mapping_requested : Option Unit
deriving DecidableEq, Repr

/-- ElasticSearchMetricsManager.__init__ (metrics.py lines 90-94): only
field assignments; no backend call is made. -/
def ElasticSearchMetricsManager.init (idx : String) : ElasticSearchMetricsManager :=
  { index := idx, es := none, mapping_requested := none }

/-- ElasticSearchMetricsManager.create_mapping (metrics.py lines 102-106):
indexes the empty body, then indexes the field mapping with
doc_type "_mapping". -/
def ElasticSearchMetricsManager.create_mapping
    (m : ElasticSearchMetricsManager) : List ESOp :=
  [ESOp.index m.index ESDocument.empty none,
   ESOp.index m.index ESDocument.mapping (some "_mapping")]

/-- ElasticSearchMetricsManager.setup (metrics.py lines 96-100): awaits the
client the first time es is None, runs create_mapping the first time
mapping_requested is None, and memoises both. -/
def ElasticSearchMetricsManager.setup (m : ElasticSearchMetricsManager) :
    ElasticSearchMetricsManager × List ESOp :=
  let m1 := if m.es.isSome then m else { m with es := some () }
  if m1.mapping_requested.isSome then (m1, [])
  else ({ m1 with mapping_requested := some () }, m1.create_mapping)

/-- One terms-aggregation bucket of the search response: the endpoint key,
the avg sub-aggregation value (null for no value), and the doc count. -/
structure ESBucket where
  key : String
  average_response_time_ms : Option Rat
  doc_count : Nat
deriving DecidableEq, Repr

/-- EndpointMetric (metrics.py lines 57-62). -/
structure EndpointMetric where
  endpoint : String
  average_response_time : Option Rat
  interval : String
  requests_count : Nat
deriving DecidableEq, Repr

/-- The backend's answer to the aggregation search, abstracted as a function
of the index name and of the "now-interval" lower bound that appears in the
query body. -/
abbrev SearchBackend := String → String → List ESBucket

/-- Normalisation step at the top of retrieve (metrics.py lines 108-110):
the interval argument (None models the absent argument) is replaced by
"24h" unless it is one of "1h", "8h", "24h". -/
def normalize_interval (interval : Option String) : String :=
  match interval with
  | some s => if ["1h", "8h", "24h"].contains s then s else "24h"
  | none => "24h"

/-- ElasticSearchMetricsManager.retrieve (metrics.py lines 108-140):
normalise the interval, run setup, issue the aggregation search bounded by
now-interval, and map every bucket to an EndpointMetric whose interval
field is the normalised value. Returns the new state, the trace, and the
result list. -/
def ElasticSearchMetricsManager.retrieve (m : ElasticSearchMetricsManager)
    (backend : SearchBackend) (interval : Option String) :
    ElasticSearchMetricsManager × List ESOp × List EndpointMetric :=
  let interval1 := normalize_interval interval
  let m1 := m.setup.1
  let ops := m.setup.2
  let buckets := backend m1.index ("now-" ++ interval1)
  (m1,
   ops ++ [ESOp.search m1.index ("now-" ++ interval1)],
   buckets.map (fun record =>
     { endpoint := record.key
       average_response_time := record.average_response_time_ms
       interval := interval1
       requests_count := record.doc_count }))

/-- ElasticSearchMetricsManager._store (metrics.py lines 145-154), the body
of the task scheduled by store: run setup, then index one document whose
endpoint and wall_ms come from the record and whose timestamp is
datetime.now().isoformat() read at write time, passed here as now_iso. -/
def ElasticSearchMetricsManager._store (m : ElasticSearchMetricsManager)
    (data : BenchmarkRecord) (now_iso : String) :
    ElasticSearchMetricsManager × List ESOp :=
  let m1 := m.setup.1
  let ops := m.setup.2
  (m1, ops ++ [ESOp.index m1.index
    (ESDocument.metric data.name data.wall_ms now_iso) none])

/-- The get_metrics endpoint (metrics.py lines 235-242): the interval query
parameter defaults to "24h" when entirely absent (None here) and is passed
to retrieve unchanged otherwise. -/
def get_metrics (m : ElasticSearchMetricsManager) (backend : SearchBackend)
    (interval : Option String) :
    ElasticSearchMetricsManager × List ESOp × List EndpointMetric :=
  m.retrieve backend (some (interval.getD "24h"))

/-- Recogniser for the trace operation that indexes a metric document. -/
def ESOp.isMetricDoc : ESOp → Bool
  | ESOp.index _ (ESDocument.metric _ _ _) _ => true
  | _ => false

/-- Membership in the measured-route list, phrased through the Bool the
middleware computes. -/
theorem is_route_measurable_eq_true (h : RequestMetricsHandler) (s : String) :
    h.is_route_measurable s = true ↔ s ∈ h.measure_routes := by
  simp [RequestMetricsHandler.is_route_measurable]

/-- Routes sampled from the unit-test application. -/
def simple_route : Route :=
  { pattern := [Seg.lit "measured-simple"], methods := ["GET"],
    endpoint_module := some "units.test_metrics", name := some "simple_route" }

/-- The unit-test route that is registered but not measured. -/
def excluded_route : Route :=
  { pattern := [Seg.lit "unmeasured"], methods := ["GET"],
    endpoint_module := some "units.test_metrics", name := some "excluded_route" }

/-- The unit-test handler: two registered routes, two measured names. -/
def testHandler : RequestMetricsHandler :=
  { routes := [simple_route, excluded_route],
    measure_routes := ["units.test_metrics.dymic_route",
                       "units.test_metrics.simple_route"] }

/-- C1: for a request whose resolved route identifier is in the measured
set, the middleware passes exactly one BenchmarkRecord to the store
callback, with wall_ms = 1000 * (exit reading - entry reading), and that
value is non-negative whenever the two clock readings are non-decreasing. -/
theorem measured_request_stores_once (h : RequestMetricsHandler) (req : Request)
    (call_next : DownstreamResult) (t_enter t_exit : Rat)
    (hm : h.get_route_name req ∈ h.measure_routes) :
    (h.call req call_next t_enter t_exit).2
      = [{ name := h.get_route_name req, wall_ms := 1000 * (t_exit - t_enter) }]
    ∧ (t_enter ≤ t_exit → (0:Rat) ≤ 1000 * (t_exit - t_enter)) := by
  have hb : h.is_route_measurable (h.get_route_name req) = true :=
    (is_route_measurable_eq_true h _).mpr hm
  constructor
  · simp [RequestMetricsHandler.call, RequestMetricsHandler.get_route_handler, hb,
      withContext, Benchmark.init, Benchmark.enter, Benchmark.take_record]
  · intro hle
    have h0 : (0:Rat) ≤ t_exit - t_enter := by linarith
    nlinarith

/-- Closed instance of measured_request_stores_once on the unit-test
application: GET /measured-simple resolves to a measured name. -/
theorem measured_request_stores_once_witness :
    (testHandler.call { path := ["measured-simple"], method := "GET" }
        (Except.ok "resp") 1 2).2
      = [{ name := testHandler.get_route_name
             { path := ["measured-simple"], method := "GET" },
           wall_ms := 1000 * (2 - 1) }]
    ∧ ((1:Rat) ≤ 2 → (0:Rat) ≤ 1000 * ((2:Rat) - 1)) :=
  measured_request_stores_once testHandler
    { path := ["measured-simple"], method := "GET" }
    (Except.ok "resp") 1 2 (by decide)

/-- C2: for a request whose resolved route identifier is not in the
measured set, the store callback is never invoked. -/
theorem unmeasured_request_never_stores (h : RequestMetricsHandler)
    (req : Request) (call_next : DownstreamResult) (t_enter t_exit : Rat)
    (hm : h.get_route_name req ∉ h.measure_routes) :
    (h.call req call_next t_enter t_exit).2 = [] := by
  have hb : h.is_route_measurable (h.get_route_name req) = false := by
    cases hcase : h.is_route_measurable (h.get_route_name req) with
    | false => rfl
    | true => exact absurd ((is_route_measurable_eq_true h _).mp hcase) hm
  simp [RequestMetricsHandler.call, RequestMetricsHandler.get_route_handler, hb,
    withContext]

/-- Closed instance of unmeasured_request_never_stores: a request that
matches no registered route resolves to the empty identifier, which is not
in the measured set. -/
theorem unmeasured_request_never_stores_witness :
    (testHandler.call { path := ["no", "such", "route"], method := "GET" }
        (Except.ok "resp") 1 2).2 = [] :=
  unmeasured_request_never_stores testHandler
    { path := ["no", "such", "route"], method := "GET" }
    (Except.ok "resp") 1 2 (by decide)

/-- C3: when the downstream handler of a measured request raises a fault,
the timer's exit still runs - the store callback receives exactly one
record - and the fault propagates unchanged as the middleware's outcome. -/
theorem faulted_measured_request_stores_and_propagates
    (h : RequestMetricsHandler) (req : Request) (f : Fault)
    (t_enter t_exit : Rat)
    (hm : h.get_route_name req ∈ h.measure_routes) :
    (h.call req (Except.error f) t_enter t_exit).1 = Except.error f
    ∧ ((h.call req (Except.error f) t_enter t_exit).2).length = 1 := by
  have hb : h.is_route_measurable (h.get_route_name req) = true :=
    (is_route_measurable_eq_true h _).mpr hm
  constructor
  · simp [RequestMetricsHandler.call, RequestMetricsHandler.get_route_handler, hb,
      withContext]
  · simp [RequestMetricsHandler.call, RequestMetricsHandler.get_route_handler, hb,
      withContext]

/-- Closed instance of faulted_measured_request_stores_and_propagates on the
unit-test application. -/
theorem faulted_measured_request_stores_and_propagates_witness :
    (testHandler.call { path := ["measured-simple"], method := "GET" }
        (Except.error "boom") 1 2).1 = Except.error "boom"
    ∧ ((testHandler.call { path := ["measured-simple"], method := "GET" }
        (Except.error "boom") 1 2).2).length = 1 :=
  faulted_measured_request_stores_and_propagates testHandler
    { path := ["measured-simple"], method := "GET" } "boom" 1 2 (by decide)

/-- Manager used by the concrete read-path instances below. -/
def testManager : ElasticSearchMetricsManager :=
  ElasticSearchMetricsManager.init "quepid_es_proxy.metrics"

/-- Backend used by the concrete read-path instances below: one bucket, as
in the unit test of retrieve. -/
def testBackend : SearchBackend :=
  fun _ _ => [{ key := "test-endpoint", average_response_time_ms := some 21,
                doc_count := 777 }]

/-- C4: the read endpoint substitutes "24h" only for an absent query
parameter and forwards any present raw value; retrieve silently maps every
value outside the three supported windows (and the absent argument) to
"24h", behaves exactly as retrieve "24h" does on such inputs, and stamps
every returned EndpointMetric with the normalised interval. -/
theorem interval_two_level_normalization (m : ElasticSearchMetricsManager)
    (backend : SearchBackend) (raw : String) (interval : Option String) :
    (get_metrics m backend none = m.retrieve backend (some "24h"))
    ∧ (get_metrics m backend (some raw) = m.retrieve backend (some raw))
    ∧ (raw ∉ ["1h", "8h", "24h"] →
        m.retrieve backend (some raw) = m.retrieve backend (some "24h"))
    ∧ (m.retrieve backend none = m.retrieve backend (some "24h"))
    ∧ (∀ e ∈ (m.retrieve backend interval).2.2,
        e.interval = normalize_interval interval) := by
  refine ⟨rfl, rfl, ?_, rfl, ?_⟩
  · intro hraw
    have hd : ¬(raw = "1h" ∨ raw = "8h" ∨ raw = "24h") := by
      simpa using hraw
    simp [ElasticSearchMetricsManager.retrieve, normalize_interval, hd]
  · intro e he
    simp only [ElasticSearchMetricsManager.retrieve, List.mem_map] at he
    obtain ⟨b, _, rfl⟩ := he
    rfl

/-- Closed instance of interval_two_level_normalization at the raw value
"error": the store behaves as for "24h" and stamps the normalised value. -/
theorem interval_two_level_normalization_witness :
    (testManager.retrieve testBackend (some "error")
        = testManager.retrieve testBackend (some "24h"))
    ∧ (∀ e ∈ (testManager.retrieve testBackend (some "error")).2.2,
        e.interval = normalize_interval (some "error")) :=
  ⟨(interval_two_level_normalization testManager testBackend "error"
      (some "error")).2.2.1 (by decide),
   (interval_two_level_normalization testManager testBackend "error"
      (some "error")).2.2.2.2⟩

/-- Helper: find? over an append whose left part is all rejected picks the
head of the right part when the predicate accepts it. -/
theorem find?_append_cons_of_not {α : Type} (p : α → Bool) (l₁ l₂ : List α)
    (r : α) (h1 : ∀ x ∈ l₁, p x = false) (hr : p r = true) :
    (l₁ ++ r :: l₂).find? p = some r := by
  induction l₁ with
  | nil => simp [List.find?_cons, hr]
  | cons a t ih =>
    have ha : p a = false := h1 a (List.mem_cons_self a t)
    rw [List.cons_append, List.find?_cons_of_neg _ (by simp [ha])]
    exact ih (fun x hx => h1 x (List.mem_cons_of_mem a hx))

/-- C5: resolution takes the first fully matching route in registration
order; an unmatched request and a matched route without endpoint or name
metadata both resolve to the empty identifier, and resolution is a total
function - no request makes it raise. -/
theorem route_resolution_first_match_total (h : RequestMetricsHandler)
    (req : Request) :
    (∀ l₁ r l₂, h.routes = l₁ ++ r :: l₂ →
        (∀ x ∈ l₁, x.matches req ≠ Match.FULL) →
        r.matches req = Match.FULL →
        h.get_matching_route req = some r)
    ∧ ((∀ r ∈ h.routes, r.matches req ≠ Match.FULL) →
        h.get_matching_route req = none ∧ h.get_route_name req = "")
    ∧ (∀ r, h.get_matching_route req = some r →
        r.endpoint_module = none ∨ r.name = none →
        h.get_route_name req = "") := by
  refine ⟨?_, ?_, ?_⟩
  · intro l₁ r l₂ hsplit h1 hr
    unfold RequestMetricsHandler.get_matching_route
    rw [hsplit]
    apply find?_append_cons_of_not
    · intro x hx
      simp [h1 x hx]
    · simp [hr]
  · intro hall
    have hnone : h.get_matching_route req = none := by
      unfold RequestMetricsHandler.get_matching_route
      rw [List.find?_eq_none]
      intro x hx
      simp [hall x hx]
    exact ⟨hnone, by simp [RequestMetricsHandler.get_route_name, hnone]⟩
  · intro r hr hmeta
    simp only [RequestMetricsHandler.get_route_name, hr]
    rcases hem : r.endpoint_module with _ | m
    · rcases hn : r.name with _ | n <;> rfl
    · rcases hn : r.name with _ | n
      · rfl
      · exfalso
        rcases hmeta with he | hne
        · rw [hem] at he
          exact Option.noConfusion he
        · rw [hn] at hne
          exact Option.noConfusion hne

/-- Mount-like route of the application: registered first, has a name but
no endpoint attribute. -/
def metrics_mount : Route :=
  { pattern := [Seg.lit "metrics"], methods := ["GET"],
    endpoint_module := none, name := some "metrics" }

/-- Literal route registered after the mount. -/
def root_route : Route :=
  { pattern := [Seg.lit "healthcheck"], methods := ["GET"],
    endpoint_module := some "quepid_es_proxy.main", name := some "root" }

/-- Parameterised route registered last. -/
def proxy_route : Route :=
  { pattern := [Seg.param "index_name"], methods := ["GET"],
    endpoint_module := some "quepid_es_proxy.main",
    name := some "explain_missing_documents" }

/-- Handler over the three routes above. -/
def mainLikeHandler : RequestMetricsHandler :=
  { routes := [metrics_mount, root_route, proxy_route],
    measure_routes := ["quepid_es_proxy.main.explain_missing_documents"] }

/-- Closed instance of route_resolution_first_match_total: the third route
is picked for GET /foo once the two earlier ones reject it; an unmatched
request resolves to the empty name; the mount, matched without endpoint
metadata, also resolves to the empty name. -/
theorem route_resolution_first_match_total_witness :
    mainLikeHandler.get_matching_route { path := ["foo"], method := "GET" }
        = some proxy_route
    ∧ mainLikeHandler.get_route_name { path := ["a", "b"], method := "GET" } = ""
    ∧ mainLikeHandler.get_route_name { path := ["metrics"], method := "GET" } = "" :=
  ⟨(route_resolution_first_match_total mainLikeHandler
      { path := ["foo"], method := "GET" }).1
      [metrics_mount, root_route] proxy_route [] rfl (by decide) (by decide),
   ((route_resolution_first_match_total mainLikeHandler
      { path := ["a", "b"], method := "GET" }).2.1 (by decide)).2,
   (route_resolution_first_match_total mainLikeHandler
      { path := ["metrics"], method := "GET" }).2.2 metrics_mount (by decide)
      (Or.inl rfl)⟩

/-- Helper: a pattern fully matches its own instantiation when every
substituted parameter value is non-empty. -/
theorem matchPath_instPath (σ : String → String) (hσ : ∀ x, σ x ≠ "")
    (pattern : List Seg) : matchPath pattern (instPath pattern σ) = true := by
  induction pattern with
  | nil => rfl
  | cons s p ih =>
    cases s with
    | lit l => simpa [instPath, matchPath, matchSeg] using ih
    | param x =>
      have hx : σ x ≠ "" := hσ x
      simp only [instPath, List.map_cons, matchPath, matchSeg, Bool.and_eq_true,
        bne_iff_ne, ne_eq]
      exact ⟨hx, by simpa [instPath] using ih⟩

/-- The application routes of main.py that the counterexample needs: GET
/healthcheck (root) is registered before GET /\x7bindex_name\x7d
(explain_missing_documents), and only the latter is in the measured set. -/
def healthcheck_route : Route :=
  { pattern := [Seg.lit "healthcheck"], methods := ["GET"],
    endpoint_module := some "quepid_es_proxy.main", name := some "root" }

/-- The parameterised GET route of main.py. -/
def explain_missing_documents_route : Route :=
  { pattern := [Seg.param "index_name"], methods := ["GET"],
    endpoint_module := some "quepid_es_proxy.main",
    name := some "explain_missing_documents" }

/-- The middleware of main.py restricted to its two GET routes, with the
measured-route list of main.py. -/
def mainHandler : RequestMetricsHandler :=
  { routes := [healthcheck_route, explain_missing_documents_route],
    measure_routes := ["quepid_es_proxy.main.explain_missing_documents",
                       "quepid_es_proxy.main.explain",
                       "quepid_es_proxy.main.search_proxy"] }

/-- C6 counterexample: GET /healthcheck and GET /other differ only in the
value substituted into the index_name parameter of the
explain_missing_documents route, yet the first is captured by the
earlier-registered literal route, so the two requests resolve to different
identifiers and receive opposite measure decisions. -/
theorem route_identity_parameter_agnostic_counterexample :
    (Request.mk ["healthcheck"] "GET").path
        = instPath explain_missing_documents_route.pattern (fun _ => "healthcheck")
    ∧ (Request.mk ["other"] "GET").path
        = instPath explain_missing_documents_route.pattern (fun _ => "other")
    ∧ mainHandler.get_route_name (Request.mk ["healthcheck"] "GET")
        ≠ mainHandler.get_route_name (Request.mk ["other"] "GET")
    ∧ mainHandler.is_route_measurable
          (mainHandler.get_route_name (Request.mk ["healthcheck"] "GET"))
        ≠ mainHandler.is_route_measurable
          (mainHandler.get_route_name (Request.mk ["other"] "GET")) := by
  decide

/-- C6 amended: two requests that differ only in the value substituted into
a path-pattern variable of the same registered route resolve to the same
identifier and the same measure decision, provided the substituted values
are non-empty, the method is one the route accepts, and no route registered
earlier fully matches either request. -/
theorem route_identity_parameter_agnostic_amended
    (pre post : List Route) (R : Route) (measure : List String)
    (σ₁ σ₂ : String → String) (meth : String)
    (h1 : ∀ x, σ₁ x ≠ "") (h2 : ∀ x, σ₂ x ≠ "")
    (hm : meth ∈ R.methods)
    (hpre₁ : ∀ r ∈ pre,
        r.matches (Request.mk (instPath R.pattern σ₁) meth) ≠ Match.FULL)
    (hpre₂ : ∀ r ∈ pre,
        r.matches (Request.mk (instPath R.pattern σ₂) meth) ≠ Match.FULL) :
    (RequestMetricsHandler.mk (pre ++ R :: post) measure).get_route_name
        (Request.mk (instPath R.pattern σ₁) meth)
      = (RequestMetricsHandler.mk (pre ++ R :: post) measure).get_route_name
        (Request.mk (instPath R.pattern σ₂) meth)
    ∧ (RequestMetricsHandler.mk (pre ++ R :: post) measure).is_route_measurable
        ((RequestMetricsHandler.mk (pre ++ R :: post) measure).get_route_name
          (Request.mk (instPath R.pattern σ₁) meth))
      = (RequestMetricsHandler.mk (pre ++ R :: post) measure).is_route_measurable
        ((RequestMetricsHandler.mk (pre ++ R :: post) measure).get_route_name
          (Request.mk (instPath R.pattern σ₂) meth)) := by
  have hfull : ∀ (σ : String → String), (∀ x, σ x ≠ "") →
      R.matches (Request.mk (instPath R.pattern σ) meth) = Match.FULL := by
    intro σ hσ
    have hp := matchPath_instPath σ hσ R.pattern
    simp [Route.matches, hp, hm]
  have hmatch : ∀ (σ : String → String), (∀ x, σ x ≠ "") →
      (∀ r ∈ pre,
        r.matches (Request.mk (instPath R.pattern σ) meth) ≠ Match.FULL) →
      (RequestMetricsHandler.mk (pre ++ R :: post) measure).get_matching_route
        (Request.mk (instPath R.pattern σ) meth) = some R := by
    intro σ hσ hpre
    unfold RequestMetricsHandler.get_matching_route
    apply find?_append_cons_of_not
    · intro x hx
      simp [hpre x hx]
    · simp [hfull σ hσ]
  have hname : ∀ (σ : String → String), (∀ x, σ x ≠ "") →
      (∀ r ∈ pre,
        r.matches (Request.mk (instPath R.pattern σ) meth) ≠ Match.FULL) →
      (RequestMetricsHandler.mk (pre ++ R :: post) measure).get_route_name
        (Request.mk (instPath R.pattern σ) meth)
      = (match R.endpoint_module, R.name with
         | some m, some n => m ++ "." ++ n
         | _, _ => "") := by
    intro σ hσ hpre
    simp only [RequestMetricsHandler.get_route_name, hmatch σ hσ hpre]
  have heq : (RequestMetricsHandler.mk (pre ++ R :: post) measure).get_route_name
        (Request.mk (instPath R.pattern σ₁) meth)
      = (RequestMetricsHandler.mk (pre ++ R :: post) measure).get_route_name
        (Request.mk (instPath R.pattern σ₂) meth) :=
    (hname σ₁ h1 hpre₁).trans (hname σ₂ h2 hpre₂).symm
  exact ⟨heq, by rw [heq]⟩

/-- Closed instance of route_identity_parameter_agnostic_amended: GET /a and
GET /b, two instantiations of the index_name parameter that no earlier
route captures, resolve to the same identifier and the same decision. -/
theorem route_identity_parameter_agnostic_amended_witness :
    mainHandler.get_route_name (Request.mk ["a"] "GET")
      = mainHandler.get_route_name (Request.mk ["b"] "GET")
    ∧ mainHandler.is_route_measurable
        (mainHandler.get_route_name (Request.mk ["a"] "GET"))
      = mainHandler.is_route_measurable
        (mainHandler.get_route_name (Request.mk ["b"] "GET")) :=
  route_identity_parameter_agnostic_amended
    [healthcheck_route] [] explain_missing_documents_route
    mainHandler.measure_routes (fun _ => "a") (fun _ => "b") "GET"
    (fun _ => by show ("a" : String) ≠ ""; decide)
    (fun _ => by show ("b" : String) ≠ ""; decide) (by decide)
    (by decide) (by decide)

/-- C7: construction leaves both the connection and the mapping fields
None and performs no backend call; the first store and the first retrieve
each leave both fields set; and setup on a state with both fields already
set returns the state unchanged with no further backend operation. -/
theorem lazy_idempotent_initialization :
    (∀ idx, (ElasticSearchMetricsManager.init idx).es = none
          ∧ (ElasticSearchMetricsManager.init idx).mapping_requested = none)
    ∧ (∀ idx data now_iso,
        ((ElasticSearchMetricsManager.init idx)._store data now_iso).1.es
            = some ()
        ∧ ((ElasticSearchMetricsManager.init idx)._store
            data now_iso).1.mapping_requested = some ())
    ∧ (∀ idx backend interval,
        ((ElasticSearchMetricsManager.init idx).retrieve backend interval).1.es
            = some ()
        ∧ ((ElasticSearchMetricsManager.init idx).retrieve
            backend interval).1.mapping_requested = some ())
    ∧ (∀ m : ElasticSearchMetricsManager,
        m.es.isSome = true → m.mapping_requested.isSome = true →
        m.setup = (m, [])) := by
  refine ⟨fun idx => ⟨rfl, rfl⟩, fun idx data now_iso => ⟨rfl, rfl⟩,
    fun idx backend interval => ⟨rfl, rfl⟩, ?_⟩
  intro m hes hmap
  simp [ElasticSearchMetricsManager.setup, hes, hmap]

/-- Closed instance of lazy_idempotent_initialization: setup of an already
initialised state is the identity with an empty trace. -/
theorem lazy_idempotent_initialization_witness :
    ElasticSearchMetricsManager.setup
        { index := "quepid_es_proxy.metrics", es := some (),
          mapping_requested := some () }
      = ({ index := "quepid_es_proxy.metrics", es := some (),
           mapping_requested := some () }, []) :=
  lazy_idempotent_initialization.2.2.2
    { index := "quepid_es_proxy.metrics", es := some (),
      mapping_requested := some () } rfl rfl

/-- C8: the persistence body scheduled by store appends, whatever the
initialisation state, exactly one metric document, whose endpoint and
wall_ms are copied from the record and whose timestamp is the write-time
instant now_iso. -/
theorem store_appends_exactly_one_metric_document
    (m : ElasticSearchMetricsManager) (data : BenchmarkRecord)
    (now_iso : String) :
    (m._store data now_iso).2.filter ESOp.isMetricDoc
      = [ESOp.index m.index
          (ESDocument.metric data.name data.wall_ms now_iso) none] := by
  rcases hes : m.es with _ | e <;> rcases hmr : m.mapping_requested with _ | mr <;>
    simp [ElasticSearchMetricsManager._store, ElasticSearchMetricsManager.setup,
      ElasticSearchMetricsManager.create_mapping, ESOp.isMetricDoc, hes, hmr,
      List.filter]

/-- C10: the first use of a freshly constructed manager indexes the empty
document into the metrics index before installing the field mapping - on
the first store as well as on the first retrieve - and that document is not
a metric document, so it carries none of the endpoint, wall_ms or timestamp
fields. -/
theorem first_use_indexes_empty_document_before_mapping
    (idx : String) (data : BenchmarkRecord) (now_iso : String)
    (backend : SearchBackend) (interval : Option String) :
    ((ElasticSearchMetricsManager.init idx)._store data now_iso).2
      = [ESOp.index idx ESDocument.empty none,
         ESOp.index idx ESDocument.mapping (some "_mapping"),
         ESOp.index idx (ESDocument.metric data.name data.wall_ms now_iso) none]
    ∧ ((ElasticSearchMetricsManager.init idx).retrieve backend interval).2.1
      = [ESOp.index idx ESDocument.empty none,
         ESOp.index idx ESDocument.mapping (some "_mapping"),
         ESOp.search idx ("now-" ++ normalize_interval interval)]
    ∧ (∀ e w t, ESDocument.empty ≠ ESDocument.metric e w t) :=
  ⟨rfl, rfl, fun _ _ _ h => ESDocument.noConfusion h⟩

end QuepidESProxy
